import Mathlib

/-!
Shallow embedding of
`tensorflow/contrib/distributions/python/ops/gaussian_conjugate_posteriors.py`.

The module exposes two pure functions, `known_sigma_posterior` and
`known_sigma_predictive`.  Each validates its `prior` argument (it must be a
`Gaussian` object) and the element type of the observation sum `s` (it must
equal the prior's dtype), then evaluates a closed-form Bayesian update and
returns a fresh `Gaussian`.  Tensor arithmetic is elementwise; the claims are
about the per-element formulas, so tensors are modelled by a single element
carrying its dtype, and floating-point arithmetic is modelled over `ℝ`
(division by zero is totalized in `ℝ`, standing in for the runtime's Inf/NaN
propagation).
-/

namespace GaussianConjugate

/-- Element types a tensor can carry (the dtypes the module distinguishes). -/
inductive DType where
  | float32
  | float64
  | int32
  | int64
deriving DecidableEq, Repr

/-- Printable dtype name, as it appears in error messages. -/
def DType.name : DType → String
  | .float32 => "float32"
  | .float64 => "float64"
  | .int32 => "int32"
  | .int64 => "int64"

/-- A floating tensor element: its dtype and its value. -/
structure Tensor where
  dtype : DType
  val : ℝ

/-- An integer tensor element (the observation count `n`). -/
structure IntTensor where
  dtype : DType
  val : ℤ

/-- A `Gaussian` distribution object as the module consumes and produces it:
a dtype shared by its parameter tensors, a mean `mu`, and a stddev `sigma`. -/
structure Gaussian where
  dtype : DType
  mu : ℝ
  sigma : ℝ

/-- The value passed as `prior`: either an actual `Gaussian` object, or some
other value (modelled as a plain pair of numbers with an element type), for
which the `isinstance` check fails. -/
inductive PriorValue where
  | gaussian (g : Gaussian)
  | pair (dtype : DType) (a b : ℝ)

/-- The two `TypeError`s the module can raise. -/
inductive TypeError where
  | invalidPriorType
  | dtypeMismatch (sDtype priorDtype : DType)
deriving DecidableEq

/-- The message string attached to each raised `TypeError` in the source. -/
def TypeError.message : TypeError → String
  | .invalidPriorType => "Expected prior to be an instance of type Gaussian"
  | .dtypeMismatch sd pd =>
      "Observation sum s.dtype does not match prior dtype: "
        ++ sd.name ++ " vs. " ++ pd.name

noncomputable section

/-- `math_ops.cast(n, dtype)`: the integer count as a floating value. -/
def cast (n : IntTensor) : ℝ := (n.val : ℝ)

/-- `math_ops.square`. -/
def square (x : ℝ) : ℝ := x * x

/-- `known_sigma_posterior(prior, sigma, s, n)` from the source:
validate `prior` and `s.dtype`, then return the conjugate posterior of the
unknown mean. -/
def known_sigma_posterior (prior : PriorValue) (sigma s : Tensor)
    (n : IntTensor) : Except TypeError Gaussian :=
  match prior with
  | .pair _ _ _ => .error .invalidPriorType
  | .gaussian g =>
      if s.dtype ≠ g.dtype then
        .error (.dtypeMismatch s.dtype g.dtype)
      else
        let nf := cast n
        let sigma0_2 := square g.sigma
        let sigma_2 := square sigma.val
        let sigmap_2 := 1 / (1 / sigma0_2 + nf / sigma_2)
        .ok { dtype := g.dtype
              mu := (g.mu / sigma0_2 + s.val / sigma_2) * sigmap_2
              sigma := Real.sqrt sigmap_2 }

/-- `known_sigma_predictive(prior, sigma, s, n)` from the source:
same validation and same intermediate computation as the posterior, but the
returned stddev is `sqrt(sigmap_2 + sigma_2)`. -/
def known_sigma_predictive (prior : PriorValue) (sigma s : Tensor)
    (n : IntTensor) : Except TypeError Gaussian :=
  match prior with
  | .pair _ _ _ => .error .invalidPriorType
  | .gaussian g =>
      if s.dtype ≠ g.dtype then
        .error (.dtypeMismatch s.dtype g.dtype)
      else
        let nf := cast n
        let sigma0_2 := square g.sigma
        let sigma_2 := square sigma.val
        let sigmap_2 := 1 / (1 / sigma0_2 + nf / sigma_2)
        .ok { dtype := g.dtype
              mu := (g.mu / sigma0_2 + s.val / sigma_2) * sigmap_2
              sigma := Real.sqrt (sigmap_2 + sigma_2) }

/-- The posterior-mean pair `(mu', sqrt sigmap_sq)` written exactly as the
spec words it: `sigma0_sq` is the prior stddev squared, `sigma_sq` is sigma
squared, `n` is cast to the floating type, `sigmap_sq = 1/(1/sigma0_sq +
n/sigma_sq)`, and `mu' = (prior.mean/sigma0_sq + s/sigma_sq) * sigmap_sq`. -/
def posteriorMeanSpec (mu0 sigma0 sigmav sv : ℝ) (nv : ℤ) : ℝ × ℝ :=
  let sigma0_sq := sigma0 ^ 2
  let sigma_sq := sigmav ^ 2
  let sigmap_sq := 1 / (1 / sigma0_sq + (nv : ℝ) / sigma_sq)
  ((mu0 / sigma0_sq + sv / sigma_sq) * sigmap_sq, Real.sqrt sigmap_sq)

/-- The posterior-predictive pair per the spec: same mean as
`posteriorMeanSpec`, stddev `sqrt(sigmap_sq + sigma_sq)`. -/
def posteriorPredictiveSpec (mu0 sigma0 sigmav sv : ℝ) (nv : ℤ) : ℝ × ℝ :=
  let sigma0_sq := sigma0 ^ 2
  let sigma_sq := sigmav ^ 2
  let sigmap_sq := 1 / (1 / sigma0_sq + (nv : ℝ) / sigma_sq)
  ((mu0 / sigma0_sq + sv / sigma_sq) * sigmap_sq,
    Real.sqrt (sigmap_sq + sigma_sq))

end

/-- Unfolding lemma: on a Gaussian prior with matching dtypes, the posterior
is the `.ok` value the source's arithmetic produces. -/
theorem posterior_ok (g : Gaussian) (sigma s : Tensor) (n : IntTensor)
    (hdt : s.dtype = g.dtype) :
    known_sigma_posterior (.gaussian g) sigma s n =
      .ok { dtype := g.dtype
            mu := (g.mu / square g.sigma + s.val / square sigma.val) *
              (1 / (1 / square g.sigma + cast n / square sigma.val))
            sigma :=
              Real.sqrt (1 / (1 / square g.sigma + cast n / square sigma.val)) } := by
  simp [known_sigma_posterior, hdt]

/-- Unfolding lemma: on a Gaussian prior with matching dtypes, the predictive
is the `.ok` value the source's arithmetic produces. -/
theorem predictive_ok (g : Gaussian) (sigma s : Tensor) (n : IntTensor)
    (hdt : s.dtype = g.dtype) :
    known_sigma_predictive (.gaussian g) sigma s n =
      .ok { dtype := g.dtype
            mu := (g.mu / square g.sigma + s.val / square sigma.val) *
              (1 / (1 / square g.sigma + cast n / square sigma.val))
            sigma :=
              Real.sqrt (1 / (1 / square g.sigma + cast n / square sigma.val)
                + square sigma.val) } := by
  simp [known_sigma_predictive, hdt]

/-- C1: for every Gaussian prior and `sigma`, `s`, `n` satisfying the input
contract (matching dtypes, positive stddevs, nonnegative count),
`known_sigma_posterior` returns a `Gaussian` whose mean and stddev are exactly
the spec's formulas `mu' = (prior.mean/sigma0_sq + s/sigma_sq) * sigmap_sq`
and `sqrt(sigmap_sq)` with `sigmap_sq = 1/(1/sigma0_sq + n/sigma_sq)`. -/
theorem C1_posterior_formula (g : Gaussian) (sigma s : Tensor) (n : IntTensor)
    (hdt : s.dtype = g.dtype) (hs0 : 0 < g.sigma) (hsig : 0 < sigma.val)
    (hn : 0 ≤ n.val) :
    known_sigma_posterior (.gaussian g) sigma s n =
      .ok { dtype := g.dtype
            mu := (posteriorMeanSpec g.mu g.sigma sigma.val s.val n.val).1
            sigma := (posteriorMeanSpec g.mu g.sigma sigma.val s.val n.val).2 } := by
  simp [known_sigma_posterior, posteriorMeanSpec, hdt, square, cast, pow_two]

/-- Witness for C1 at the concrete input `prior = N(0, 1)`, `sigma = 1`,
`s = 10`, `n = 10`, all of dtype float64. -/
theorem C1_witness :
    known_sigma_posterior (.gaussian ⟨.float64, 0, 1⟩) ⟨.float64, 1⟩
        ⟨.float64, 10⟩ ⟨.int64, 10⟩ =
      .ok { dtype := .float64
            mu := (posteriorMeanSpec 0 1 1 10 10).1
            sigma := (posteriorMeanSpec 0 1 1 10 10).2 } :=
  C1_posterior_formula ⟨.float64, 0, 1⟩ ⟨.float64, 1⟩ ⟨.float64, 10⟩
    ⟨.int64, 10⟩ rfl (by norm_num) (by norm_num) (by norm_num)

/-- C2: for every valid input, `known_sigma_predictive` returns a `Gaussian`
whose mean is the same formula as the posterior mean, and whose stddev is
`sqrt(sigmap_sq + sigma_sq)`. -/
theorem C2_predictive_formula (g : Gaussian) (sigma s : Tensor) (n : IntTensor)
    (hdt : s.dtype = g.dtype) (hs0 : 0 < g.sigma) (hsig : 0 < sigma.val)
    (hn : 0 ≤ n.val) :
    known_sigma_predictive (.gaussian g) sigma s n =
      .ok { dtype := g.dtype
            mu := (posteriorMeanSpec g.mu g.sigma sigma.val s.val n.val).1
            sigma := (posteriorPredictiveSpec g.mu g.sigma sigma.val s.val n.val).2 } := by
  simp [known_sigma_predictive, posteriorMeanSpec, posteriorPredictiveSpec,
    hdt, square, cast, pow_two]

/-- Witness for C2 at the concrete input `prior = N(0, 1)`, `sigma = 1`,
`s = 10`, `n = 10`, all of dtype float64. -/
theorem C2_witness :
    known_sigma_predictive (.gaussian ⟨.float64, 0, 1⟩) ⟨.float64, 1⟩
        ⟨.float64, 10⟩ ⟨.int64, 10⟩ =
      .ok { dtype := .float64
            mu := (posteriorMeanSpec 0 1 1 10 10).1
            sigma := (posteriorPredictiveSpec 0 1 1 10 10).2 } :=
  C2_predictive_formula ⟨.float64, 0, 1⟩ ⟨.float64, 1⟩ ⟨.float64, 10⟩
    ⟨.int64, 10⟩ rfl (by norm_num) (by norm_num) (by norm_num)

/-- C3 counterexample: on the spec's concrete input (`prior.mean = 0`,
`prior.stddev = 1`, `sigma = 1`, `s = 10`, `n = 10`) the posterior mean the
code computes is `10/11`, which is not the claimed `5.0`. -/
theorem C3_counterexample :
    known_sigma_posterior (.gaussian ⟨.float64, 0, 1⟩) ⟨.float64, 1⟩
        ⟨.float64, 10⟩ ⟨.int64, 10⟩ =
      .ok ⟨.float64, 10 / 11, Real.sqrt (1 / 11)⟩ ∧
    (10 : ℝ) / 11 ≠ 5 := by
  constructor
  · simp only [known_sigma_posterior, square, cast]
    norm_num
  · norm_num

/-- C3 amended: on the concrete input `prior.mean = 0`, `prior.stddev = 1`,
`sigma = 1`, `s = 10`, `n = 10`, `known_sigma_posterior` returns mean `10/11`
and stddev `sqrt(1/11)`, and `known_sigma_predictive` returns mean `10/11`
and stddev `sqrt(1/11 + 1)`. -/
theorem C3_amended_concrete :
    known_sigma_posterior (.gaussian ⟨.float64, 0, 1⟩) ⟨.float64, 1⟩
        ⟨.float64, 10⟩ ⟨.int64, 10⟩ =
      .ok ⟨.float64, 10 / 11, Real.sqrt (1 / 11)⟩ ∧
    known_sigma_predictive (.gaussian ⟨.float64, 0, 1⟩) ⟨.float64, 1⟩
        ⟨.float64, 10⟩ ⟨.int64, 10⟩ =
      .ok ⟨.float64, 10 / 11, Real.sqrt (1 / 11 + 1)⟩ := by
  constructor
  · simp only [known_sigma_posterior, square, cast]
    norm_num
  · simp only [known_sigma_predictive, square, cast]
    norm_num

/-- C4: for every valid input, the two operations return Gaussians with
identical means. -/
theorem C4_means_equal (g : Gaussian) (sigma s : Tensor) (n : IntTensor)
    (hdt : s.dtype = g.dtype) :
    ∃ gp gq,
      known_sigma_posterior (.gaussian g) sigma s n = .ok gp ∧
      known_sigma_predictive (.gaussian g) sigma s n = .ok gq ∧
      gp.mu = gq.mu :=
  ⟨_, _, posterior_ok g sigma s n hdt, predictive_ok g sigma s n hdt, rfl⟩

/-- Witness for C4 at the concrete input `prior = N(2, 3)`, `sigma = 1`,
`s = 7`, `n = 4`, all of dtype float32. -/
theorem C4_witness :
    ∃ gp gq,
      known_sigma_posterior (.gaussian ⟨.float32, 2, 3⟩) ⟨.float32, 1⟩
          ⟨.float32, 7⟩ ⟨.int32, 4⟩ = .ok gp ∧
      known_sigma_predictive (.gaussian ⟨.float32, 2, 3⟩) ⟨.float32, 1⟩
          ⟨.float32, 7⟩ ⟨.int32, 4⟩ = .ok gq ∧
      gp.mu = gq.mu :=
  C4_means_equal ⟨.float32, 2, 3⟩ ⟨.float32, 1⟩ ⟨.float32, 7⟩ ⟨.int32, 4⟩ rfl

/-- C5: for every valid input with `sigma > 0`, the predictive variance
(squared stddev) is at least the posterior variance. -/
theorem C5_predictive_variance_ge (g : Gaussian) (sigma s : Tensor)
    (n : IntTensor) (hdt : s.dtype = g.dtype) (hs0 : 0 < g.sigma)
    (hsig : 0 < sigma.val) (hn : 0 ≤ n.val) :
    ∃ gp gq,
      known_sigma_posterior (.gaussian g) sigma s n = .ok gp ∧
      known_sigma_predictive (.gaussian g) sigma s n = .ok gq ∧
      gp.sigma ^ 2 ≤ gq.sigma ^ 2 := by
  refine ⟨_, _, posterior_ok g sigma s n hdt, predictive_ok g sigma s n hdt, ?_⟩
  have hA : 0 < 1 / (1 / square g.sigma + cast n / square sigma.val) := by
    have h1 : 0 < 1 / square g.sigma := by
      simp only [square]
      positivity
    have h2 : 0 ≤ cast n / square sigma.val := by
      have hnn : (0 : ℝ) ≤ cast n := by
        simpa [cast] using Int.cast_nonneg.mpr hn
      simp only [square]
      positivity
    positivity
  have hB : 0 ≤ square sigma.val := by
    simp only [square]; exact mul_self_nonneg _
  simp only
  rw [Real.sq_sqrt hA.le, Real.sq_sqrt (by linarith)]
  linarith

/-- Witness for C5 at the concrete input `prior = N(0, 1)`, `sigma = 1`,
`s = 10`, `n = 10`, all of dtype float64. -/
theorem C5_witness :
    ∃ gp gq,
      known_sigma_posterior (.gaussian ⟨.float64, 0, 1⟩) ⟨.float64, 1⟩
          ⟨.float64, 10⟩ ⟨.int64, 10⟩ = .ok gp ∧
      known_sigma_predictive (.gaussian ⟨.float64, 0, 1⟩) ⟨.float64, 1⟩
          ⟨.float64, 10⟩ ⟨.int64, 10⟩ = .ok gq ∧
      gp.sigma ^ 2 ≤ gq.sigma ^ 2 :=
  C5_predictive_variance_ge ⟨.float64, 0, 1⟩ ⟨.float64, 1⟩ ⟨.float64, 10⟩
    ⟨.int64, 10⟩ rfl (by norm_num) (by norm_num) (by norm_num)

/-- C6 counterexample: with `prior = N(0, 1)`, `sigma = 1`, `s = 1`, `n = 0`,
`known_sigma_posterior` returns mean `1`, not the prior mean `0`: the `n = 0`
call reproduces the prior only when `s = 0` as well, because the mean formula
keeps the `s/sigma_sq` term. -/
theorem C6_counterexample :
    known_sigma_posterior (.gaussian ⟨.float64, 0, 1⟩) ⟨.float64, 1⟩
        ⟨.float64, 1⟩ ⟨.int64, 0⟩ = .ok ⟨.float64, 1, 1⟩ ∧
    (1 : ℝ) ≠ 0 := by
  constructor
  · simp only [known_sigma_posterior, square, cast]
    norm_num
  · norm_num

/-- C6 amended: for every valid prior and sigma > 0, calling
`known_sigma_posterior` with `n = 0` AND `s = 0` (zero observations have zero
sum) returns exactly the prior's parameters. -/
theorem C6_amended_n_zero (g : Gaussian) (sigma s : Tensor) (n : IntTensor)
    (hdt : s.dtype = g.dtype) (hs0 : 0 < g.sigma) (hsig : 0 < sigma.val)
    (hn : n.val = 0) (hs : s.val = 0) :
    known_sigma_posterior (.gaussian g) sigma s n =
      .ok { dtype := g.dtype, mu := g.mu, sigma := g.sigma } := by
  rw [posterior_ok g sigma s n hdt]
  have hne : square g.sigma ≠ 0 := ne_of_gt (by simp only [square]; positivity)
  simp only [cast, hn, hs, Int.cast_zero, zero_div, add_zero, one_div, inv_inv,
    Except.ok.injEq, Gaussian.mk.injEq]
  refine ⟨trivial, ?_, ?_⟩
  · field_simp
  · simpa [square] using Real.sqrt_mul_self hs0.le

/-- Witness for C6 amended at the concrete input `prior = N(2, 3)`,
`sigma = 1`, `s = 0`, `n = 0`, all of dtype float64. -/
theorem C6_witness :
    known_sigma_posterior (.gaussian ⟨.float64, 2, 3⟩) ⟨.float64, 1⟩
        ⟨.float64, 0⟩ ⟨.int64, 0⟩ =
      .ok { dtype := .float64, mu := 2, sigma := 3 } :=
  C6_amended_n_zero ⟨.float64, 2, 3⟩ ⟨.float64, 1⟩ ⟨.float64, 0⟩ ⟨.int64, 0⟩
    rfl (by norm_num) (by norm_num) rfl rfl

/-- C7: for every non-Gaussian prior value, both operations fail with the
invalid-prior `TypeError`, before any arithmetic (the result is produced by
the first check alone, independent of `sigma`, `s`, `n`). -/
theorem C7_invalid_prior (dt : DType) (a b : ℝ) (sigma s : Tensor)
    (n : IntTensor) :
    known_sigma_posterior (.pair dt a b) sigma s n =
        .error .invalidPriorType ∧
    known_sigma_predictive (.pair dt a b) sigma s n =
        .error .invalidPriorType :=
  ⟨rfl, rfl⟩

/-- C8: for every Gaussian prior and `s` of a different dtype, both
operations fail with the dtype-mismatch `TypeError`, whose message names
both element types. -/
theorem C8_dtype_mismatch (g : Gaussian) (sigma s : Tensor) (n : IntTensor)
    (hdt : s.dtype ≠ g.dtype) :
    known_sigma_posterior (.gaussian g) sigma s n =
        .error (.dtypeMismatch s.dtype g.dtype) ∧
    known_sigma_predictive (.gaussian g) sigma s n =
        .error (.dtypeMismatch s.dtype g.dtype) ∧
    (TypeError.dtypeMismatch s.dtype g.dtype).message =
      "Observation sum s.dtype does not match prior dtype: "
        ++ s.dtype.name ++ " vs. " ++ g.dtype.name := by
  refine ⟨?_, ?_, rfl⟩ <;>
    simp [known_sigma_posterior, known_sigma_predictive, hdt]

/-- Witness for C8: a float32 `s` against a float64 prior. -/
theorem C8_witness :
    known_sigma_posterior (.gaussian ⟨.float64, 0, 1⟩) ⟨.float64, 1⟩
        ⟨.float32, 10⟩ ⟨.int64, 10⟩ =
        .error (.dtypeMismatch .float32 .float64) ∧
    known_sigma_predictive (.gaussian ⟨.float64, 0, 1⟩) ⟨.float64, 1⟩
        ⟨.float32, 10⟩ ⟨.int64, 10⟩ =
        .error (.dtypeMismatch .float32 .float64) ∧
    (TypeError.dtypeMismatch .float32 .float64).message =
      "Observation sum s.dtype does not match prior dtype: "
        ++ DType.name .float32 ++ " vs. " ++ DType.name .float64 :=
  C8_dtype_mismatch ⟨.float64, 0, 1⟩ ⟨.float64, 1⟩ ⟨.float32, 10⟩
    ⟨.int64, 10⟩ (by decide)

/-- C9: whenever the prior is Gaussian and `s`'s dtype matches, both
operations return `.ok` — no error is raised even for degenerate numeric
inputs (`sigma ≤ 0`, `n < 0`), which flow through the arithmetic. -/
theorem C9_no_numeric_validation (g : Gaussian) (sigma s : Tensor)
    (n : IntTensor) (hdt : s.dtype = g.dtype) :
    (∃ gp, known_sigma_posterior (.gaussian g) sigma s n = .ok gp) ∧
    (∃ gq, known_sigma_predictive (.gaussian g) sigma s n = .ok gq) :=
  ⟨⟨_, posterior_ok g sigma s n hdt⟩, ⟨_, predictive_ok g sigma s n hdt⟩⟩

/-- Witness for C9 at a degenerate input: `sigma = 0` and `n = -3` still
yield `.ok` results. -/
theorem C9_witness :
    (∃ gp, known_sigma_posterior (.gaussian ⟨.float64, 0, 1⟩) ⟨.float64, 0⟩
        ⟨.float64, 5⟩ ⟨.int64, -3⟩ = .ok gp) ∧
    (∃ gq, known_sigma_predictive (.gaussian ⟨.float64, 0, 1⟩) ⟨.float64, 0⟩
        ⟨.float64, 5⟩ ⟨.int64, -3⟩ = .ok gq) :=
  C9_no_numeric_validation ⟨.float64, 0, 1⟩ ⟨.float64, 0⟩ ⟨.float64, 5⟩
    ⟨.int64, -3⟩ rfl

/-- C10: the prior-type check precedes the dtype check.  A non-Gaussian
prior always yields the invalid-prior error, whatever `s`'s dtype; and
whenever either operation yields a dtype-mismatch error, the prior was a
Gaussian. -/
theorem C10_prior_check_first (dt : DType) (a b : ℝ) (sigma s : Tensor)
    (n : IntTensor) (prior : PriorValue) (sigma2 s2 : Tensor) (n2 : IntTensor)
    (d1 d2 : DType)
    (h : known_sigma_posterior prior sigma2 s2 n2 =
          .error (.dtypeMismatch d1 d2) ∨
        known_sigma_predictive prior sigma2 s2 n2 =
          .error (.dtypeMismatch d1 d2)) :
    known_sigma_posterior (.pair dt a b) sigma s n =
        .error .invalidPriorType ∧
    known_sigma_predictive (.pair dt a b) sigma s n =
        .error .invalidPriorType ∧
    ∃ g, prior = .gaussian g := by
  refine ⟨rfl, rfl, ?_⟩
  cases prior with
  | gaussian g => exact ⟨g, rfl⟩
  | pair dt2 a2 b2 =>
      cases h with
      | inl h => simp [known_sigma_posterior] at h
      | inr h => simp [known_sigma_predictive] at h

/-- Witness for C10: a Gaussian float64 prior with a float32 `s` produces
the dtype-mismatch error; a pair prior (with a dtype mismatching `s`'s too)
produces the invalid-prior error. -/
theorem C10_witness :
    known_sigma_posterior (.pair .float32 1 2) ⟨.float64, 1⟩ ⟨.float64, 1⟩
        ⟨.int64, 1⟩ = .error .invalidPriorType ∧
    known_sigma_predictive (.pair .float32 1 2) ⟨.float64, 1⟩ ⟨.float64, 1⟩
        ⟨.int64, 1⟩ = .error .invalidPriorType ∧
    ∃ g, PriorValue.gaussian ⟨.float64, 0, 1⟩ = .gaussian g :=
  C10_prior_check_first .float32 1 2 ⟨.float64, 1⟩ ⟨.float64, 1⟩ ⟨.int64, 1⟩
    (.gaussian ⟨.float64, 0, 1⟩) ⟨.float64, 1⟩ ⟨.float32, 5⟩ ⟨.int64, 2⟩
    .float32 .float64 (Or.inl rfl)

end GaussianConjugate
